import Mathlib

/-!
Verification of the kv_engine storage-engine specification against a shallow
embedding of the repository's source code.

Each definition below is translated from a concrete function of the source
tree (file and function are named in the doc comment).  Definitions marked
"Modelled from the spec" embed code of this repository whose implementation
file is not part of the provided sources (only its tests and callers are);
those are built faithfully from the specification's own words.
-/

namespace KVEngine

/-- The engine error codes (`ENGINE_ERROR_CODE`) that appear in
`Connection::remapErrorCode` and the KVBucket entry points. -/
inductive EngineError
  | ENGINE_SUCCESS
  | ENGINE_KEY_ENOENT
  | ENGINE_KEY_EEXISTS
  | ENGINE_ENOMEM
  | ENGINE_NOT_STORED
  | ENGINE_EINVAL
  | ENGINE_ENOTSUP
  | ENGINE_EWOULDBLOCK
  | ENGINE_E2BIG
  | ENGINE_DISCONNECT
  | ENGINE_NOT_MY_VBUCKET
  | ENGINE_TMPFAIL
  | ENGINE_ERANGE
  | ENGINE_ROLLBACK
  | ENGINE_EBUSY
  | ENGINE_DELTA_BADVAL
  | ENGINE_PREDICATE_FAILED
  | ENGINE_FAILED
  | ENGINE_LOCKED
  | ENGINE_LOCKED_TMPFAIL
  | ENGINE_UNKNOWN_COLLECTION
  | ENGINE_COLLECTIONS_MANIFEST_IS_AHEAD
  | ENGINE_EACCESS
  | ENGINE_NO_BUCKET
  | ENGINE_AUTH_STALE
  | ENGINE_DURABILITY_IMPOSSIBLE
  | ENGINE_SYNC_WRITE_IN_PROGRESS
  | ENGINE_SYNC_WRITE_AMBIGUOUS
  | ENGINE_DCP_STREAMID_INVALID
deriving DecidableEq, Repr, Fintype

/-- Embeds `Connection::remapErrorCode` (src/unnamed/part_000, connection.cc).
Clients with `xerror_support` get every code unchanged.  Otherwise the
whitelist cases return the code itself, `ENGINE_LOCKED` maps to
`ENGINE_KEY_EEXISTS`, `ENGINE_LOCKED_TMPFAIL` and
`ENGINE_SYNC_WRITE_IN_PROGRESS` map to `ENGINE_TMPFAIL`, the collections
codes depend on `isCollectionsSupported()`, and the remaining cases fall
through (`break`) to the final `return ENGINE_DISCONNECT`. -/
def Connection.remapErrorCode (xerror_support : Bool)
    (collections_supported : Bool) (code : EngineError) : EngineError :=
  if xerror_support then
    code
  else
    match code with
    | .ENGINE_SUCCESS | .ENGINE_KEY_ENOENT | .ENGINE_KEY_EEXISTS
    | .ENGINE_ENOMEM | .ENGINE_NOT_STORED | .ENGINE_EINVAL
    | .ENGINE_ENOTSUP | .ENGINE_EWOULDBLOCK | .ENGINE_E2BIG
    | .ENGINE_DISCONNECT | .ENGINE_NOT_MY_VBUCKET | .ENGINE_TMPFAIL
    | .ENGINE_ERANGE | .ENGINE_ROLLBACK | .ENGINE_EBUSY
    | .ENGINE_DELTA_BADVAL | .ENGINE_PREDICATE_FAILED | .ENGINE_FAILED =>
        code
    | .ENGINE_LOCKED => .ENGINE_KEY_EEXISTS
    | .ENGINE_LOCKED_TMPFAIL => .ENGINE_TMPFAIL
    | .ENGINE_UNKNOWN_COLLECTION | .ENGINE_COLLECTIONS_MANIFEST_IS_AHEAD =>
        if collections_supported then code else .ENGINE_EINVAL
    | .ENGINE_SYNC_WRITE_IN_PROGRESS => .ENGINE_TMPFAIL
    | .ENGINE_EACCESS | .ENGINE_NO_BUCKET | .ENGINE_AUTH_STALE
    | .ENGINE_DURABILITY_IMPOSSIBLE | .ENGINE_SYNC_WRITE_AMBIGUOUS
    | .ENGINE_DCP_STREAMID_INVALID =>
        .ENGINE_DISCONNECT

/-- The whitelist of `Connection::remapErrorCode`: the codes of the first
`switch` group, which `return code` unchanged. -/
def errorWhitelist : List EngineError :=
  [.ENGINE_SUCCESS, .ENGINE_KEY_ENOENT, .ENGINE_KEY_EEXISTS, .ENGINE_ENOMEM,
   .ENGINE_NOT_STORED, .ENGINE_EINVAL, .ENGINE_ENOTSUP, .ENGINE_EWOULDBLOCK,
   .ENGINE_E2BIG, .ENGINE_DISCONNECT, .ENGINE_NOT_MY_VBUCKET, .ENGINE_TMPFAIL,
   .ENGINE_ERANGE, .ENGINE_ROLLBACK, .ENGINE_EBUSY, .ENGINE_DELTA_BADVAL,
   .ENGINE_PREDICATE_FAILED, .ENGINE_FAILED]

/-- The cpu-time counters of a `Connection` touched by
`Connection::addCpuTime` (src/unnamed/part_000, connection.cc).
Durations are in nanoseconds. -/
structure ConnectionCpu where
  total_cpu_time : Nat
  min_sched_time : Nat
  max_sched_time : Nat
deriving DecidableEq, Repr

/-- Embeds `Connection::addCpuTime(ns)` (src/unnamed/part_000, connection.cc):
```
total_cpu_time += ns;
min_sched_time = std::min(min_sched_time, ns);
max_sched_time = std::max(min_sched_time, ns);
```
Note the sequencing: the third statement reads the `min_sched_time`
just assigned by the second. -/
def Connection.addCpuTime (c : ConnectionCpu) (ns : Nat) : ConnectionCpu :=
  { total_cpu_time := c.total_cpu_time + ns
    min_sched_time := Nat.min c.min_sched_time ns
    max_sched_time := Nat.max (Nat.min c.min_sched_time ns) ns }

/-- Embeds `Connection::prepare` (src/unnamed/part_000, connection.cc), as a
sequence of early returns.  `some e` means a `return e` statement executed;
the trailing `return ENGINE_ENOTSUP;` after the unconditional `return ret;`
is the fallback taken only if no earlier return fired.
Inputs: whether `bucket_get_item_info` succeeded, whether `reserveItem`
succeeded, the size of the write buffer handed to `write->produce`, and
`total = sizeof(extras) + sizeof(req)`. -/
def Connection.prepareReturns (itemInfoOk : Bool) (reserveOk : Bool)
    (wbufSize total : Nat) : Option EngineError :=
  if !itemInfoOk then
    some .ENGINE_FAILED
  else if !reserveOk then
    some .ENGINE_FAILED
  else
    -- ret starts as ENGINE_SUCCESS; the produce lambda sets it to
    -- ENGINE_E2BIG when the write buffer cannot hold header + extras;
    -- then `return ret;`.
    some (if wbufSize < total then .ENGINE_E2BIG else .ENGINE_SUCCESS)

/-- The value `Connection::prepare` actually returns: the first executed
return statement, with the trailing `return ENGINE_ENOTSUP;` as fallback. -/
def Connection.prepare (itemInfoOk : Bool) (reserveOk : Bool)
    (wbufSize total : Nat) : EngineError :=
  (Connection.prepareReturns itemInfoOk reserveOk wbufSize total).getD
    .ENGINE_ENOTSUP

/-- The states of `vbucket_state_t`, the partition state machine. -/
inductive vbucket_state_t
  | active
  | replica
  | pending
  | dead
deriving DecidableEq, Repr

/-- Embeds `vbucket_state` (src/engines/ep/src/bgfetcher.h): the persisted
per-partition state blob.  `failovers` is the JSON string of the failover
table, as in the source. -/
structure vbucket_state where
  state : vbucket_state_t
  checkpointId : Nat
  maxDeletedSeqno : Nat
  highSeqno : Int
  purgeSeqno : Nat
  lastSnapStart : Nat
  lastSnapEnd : Nat
  maxCas : Nat
  hlcCasEpochSeqno : Int
  mightContainXattrs : Bool
  failovers : String
  supportsCollections : Bool
deriving DecidableEq, Repr

/-- Embeds `vbucket_state::needsToBePersisted` (src/engines/ep/src/bgfetcher.h):
```
if (state != vbstate.state || failovers.compare(vbstate.failovers) != 0) {
    return true;
}
return false;
```
-/
def vbucket_state.needsToBePersisted (self other : vbucket_state) : Bool :=
  if self.state ≠ other.state ∨ self.failovers ≠ other.failovers then
    true
  else
    false

/-- The per-partition inputs that decide the admission gate of the
client-write entry points of `KVBucket` (src/engines/ep/src/kv_bucket.cc):
the partition's current state, `VBucket::isTakeoverBackedUp()`, and the
value `VBucket::addPendingOp(cookie)` would return (whether the cookie was
registered on the pending-ops queue). -/
structure VBucketGate where
  state : vbucket_state_t
  takeoverBackedUp : Bool
  addPendingOpSucceeds : Bool
deriving DecidableEq, Repr

/-- Outcome of the admission gate of a client-write entry point:
either an early `return` with an error code, or execution proceeds into
the collections scope and delegates to the `VBucket` operation. -/
inductive StoreOutcome
  | fail (code : EngineError)
  | proceed
deriving DecidableEq, Repr

/-- Admission gate of `KVBucket::set` (src/engines/ep/src/kv_bucket.cc):
dead → NOT_MY_VBUCKET; replica → NOT_MY_VBUCKET; pending →
`addPendingOp` then EWOULDBLOCK if registered; otherwise (active) a
takeover-backed-up partition returns TMPFAIL. -/
def KVBucket.set_admission (vb : VBucketGate) : StoreOutcome :=
  if vb.state = .dead then
    .fail .ENGINE_NOT_MY_VBUCKET
  else if vb.state = .replica then
    .fail .ENGINE_NOT_MY_VBUCKET
  else if vb.state = .pending then
    if vb.addPendingOpSucceeds then .fail .ENGINE_EWOULDBLOCK else .proceed
  else if vb.takeoverBackedUp then
    .fail .ENGINE_TMPFAIL
  else
    .proceed

/-- Admission gate of `KVBucket::add` (src/engines/ep/src/kv_bucket.cc).
After the state chain (which combines dead and replica into one branch and
includes the takeover check), `add` also rejects a non-zero CAS with
NOT_STORED before entering the collections scope. -/
def KVBucket.add_admission (vb : VBucketGate) (cas : Nat) : StoreOutcome :=
  let afterChain : StoreOutcome :=
    if cas ≠ 0 then .fail .ENGINE_NOT_STORED else .proceed
  if vb.state = .dead ∨ vb.state = .replica then
    .fail .ENGINE_NOT_MY_VBUCKET
  else if vb.state = .pending then
    if vb.addPendingOpSucceeds then .fail .ENGINE_EWOULDBLOCK else afterChain
  else if vb.takeoverBackedUp then
    .fail .ENGINE_TMPFAIL
  else
    afterChain

/-- Admission gate of `KVBucket::replace` (src/engines/ep/src/kv_bucket.cc).
Note: the source's else-if chain for `replace` has no
`isTakeoverBackedUp()` branch; after the pending branch execution falls
directly into the collections scope. -/
def KVBucket.replace_admission (vb : VBucketGate) : StoreOutcome :=
  if vb.state = .dead ∨ vb.state = .replica then
    .fail .ENGINE_NOT_MY_VBUCKET
  else if vb.state = .pending then
    if vb.addPendingOpSucceeds then .fail .ENGINE_EWOULDBLOCK else .proceed
  else
    .proceed

/-- Admission gate of `KVBucket::deleteItem` (src/engines/ep/src/kv_bucket.cc)
for an existing partition (the `!vb` half of the first condition cannot
fire then). -/
def KVBucket.deleteItem_admission (vb : VBucketGate) : StoreOutcome :=
  if vb.state = .dead then
    .fail .ENGINE_NOT_MY_VBUCKET
  else if vb.state = .replica then
    .fail .ENGINE_NOT_MY_VBUCKET
  else if vb.state = .pending then
    if vb.addPendingOpSucceeds then .fail .ENGINE_EWOULDBLOCK else .proceed
  else if vb.takeoverBackedUp then
    .fail .ENGINE_TMPFAIL
  else
    .proceed

/-- A failover-table entry `(vb_uuid, by_seqno)`. -/
structure FailoverEntry where
  vb_uuid : Nat
  by_seqno : Nat
deriving DecidableEq, Repr

/-- The checkpoint-manager fields observable through
`KVBucket::setVBucketState_UNLOCKED`: the snapshot range (reset when a
replica is promoted to active) and the open checkpoint id. -/
structure CheckpointMgrRec where
  snapStart : Nat
  snapEnd : Nat
  openCheckpointId : Nat
deriving DecidableEq, Repr

/-- The `VBucket` fields read or written by
`KVBucket::setVBucketState_UNLOCKED` (src/engines/ep/src/kv_bucket.cc). -/
structure VBucketRec where
  state : vbucket_state_t
  failovers : List FailoverEntry
  checkpointMgr : CheckpointMgrRec
  pendingOps : List Nat
  persistedSnapStart : Nat
  persistedSnapEnd : Nat
  persistenceSeqno : Nat
deriving DecidableEq, Repr

/-- The `TransferVB` flag of `setVBucketState`. -/
inductive TransferVB
  | Yes
  | No
deriving DecidableEq, Repr

/-- The observable effects of one `KVBucket::setVBucketState_UNLOCKED`
call: the returned error code, the resulting partition (if any), and
whether each side effect of the function body happened. -/
structure SetVBStateEffects where
  result : EngineError
  vb : Option VBucketRec
  dcpNotified : Bool
  snapshotRangeReset : Bool
  collectionsUpdated : Bool
  pendingOpsTaskScheduled : Bool
  persistScheduled : Bool
  createdNew : Bool
deriving DecidableEq, Repr

/-- Embeds `KVBucket::setVBucketState_UNLOCKED` (src/engines/ep/src/kv_bucket.cc).
`vb?` is `vbMap.getBucket(vbid)`; `meta` the json metadata (the code only
tests `meta.empty()`); `newUuid` the random uuid `createEntry` would mint;
`vbidInRange` is `vbid.get() < vbMap.getSize()` for the creation path. -/
def KVBucket.setVBucketState_UNLOCKED (vb? : Option VBucketRec)
    (toState : vbucket_state_t) (meta : List (String × String))
    (transfer : TransferVB) (notify_dcp : Bool) (newUuid : Nat)
    (vbidInRange : Bool) : SetVBStateEffects :=
  match vb? with
  | some vb =>
    -- Return success immediately if the new state is the same as the old,
    -- and no extra metadata was included.
    if toState = vb.state ∧ meta.isEmpty then
      { result := .ENGINE_SUCCESS, vb := some vb, dcpNotified := false,
        snapshotRangeReset := false, collectionsUpdated := false,
        pendingOpsTaskScheduled := false, persistScheduled := false,
        createdNew := false }
    else
      let oldstate := vb.state
      -- vbMap.setState(vb, toState, meta, ...)
      let vb1 := { vb with state := toState }
      let dcpNotified := oldstate ≠ toState ∧ notify_dcp
      -- to == active && oldstate == replica: resetSnapshotRange and
      -- collectionsManager->update(*vb)
      let promotedFromReplica := toState = .active ∧ oldstate = .replica
      let vb2 :=
        if promotedFromReplica then
          { vb1 with checkpointMgr :=
              { vb1.checkpointMgr with
                  snapStart := vb1.persistenceSeqno,
                  snapEnd := vb1.persistenceSeqno } }
        else vb1
      -- to == active && transfer == No: failovers->createEntry(highSeqno)
      let vb3 :=
        if toState = .active ∧ transfer = .No then
          let highSeqno :=
            if vb.persistedSnapEnd = vb.persistenceSeqno then
              vb.persistedSnapEnd
            else
              vb.persistedSnapStart
          { vb2 with failovers := ⟨newUuid, highSeqno⟩ :: vb2.failovers }
        else vb2
      { result := .ENGINE_SUCCESS, vb := some vb3,
        dcpNotified := decide dcpNotified,
        snapshotRangeReset := decide promotedFromReplica,
        collectionsUpdated := decide promotedFromReplica,
        pendingOpsTaskScheduled :=
          decide (oldstate = .pending ∧ toState = .active),
        persistScheduled := true, createdNew := false }
  | none =>
    if vbidInRange then
      -- Creation path: a fresh VBucket with a fresh failover table; the
      -- first checkpoint for an active vbucket starts with id 2.
      let newvb : VBucketRec :=
        { state := toState, failovers := [],
          checkpointMgr :=
            { snapStart := 0, snapEnd := 0,
              openCheckpointId := if toState = .active then 2 else 0 },
          pendingOps := [], persistedSnapStart := 0, persistedSnapEnd := 0,
          persistenceSeqno := 0 }
      { result := .ENGINE_SUCCESS, vb := some newvb, dcpNotified := false,
        snapshotRangeReset := false,
        collectionsUpdated := decide (toState = .active),
        pendingOpsTaskScheduled := false, persistScheduled := true,
        createdNew := true }
    else
      { result := .ENGINE_ERANGE, vb := none, dcpNotified := false,
        snapshotRangeReset := false, collectionsUpdated := false,
        pendingOpsTaskScheduled := false, persistScheduled := false,
        createdNew := false }

/-- A collections manifest.  For the manager's control flow only the
identity of the manifest matters; `uid` stands for its content. -/
structure Manifest where
  uid : Nat
deriving DecidableEq, Repr

/-- A partition as seen by the collections manager
(src/unnamed/part_001, collections/manager.cc): its state, the predicate
deciding whether `VBucket::updateFromManifest` accepts a manifest, and the
manifest the partition currently holds. -/
structure CollectionsVB where
  state : vbucket_state_t
  accepts : Manifest → Bool
  manifest : Manifest

/-- Embeds `VBucket::updateFromManifest`: applies the manifest if accepted,
returning the (possibly updated) partition and the success flag. -/
def CollectionsVB.updateFromManifest (vb : CollectionsVB) (m : Manifest) :
    CollectionsVB × Bool :=
  if vb.accepts m then ({ vb with manifest := m }, true) else (vb, false)

/-- Embeds `Collections::Manager::updateAllVBuckets` (src/unnamed/part_001):
walks the vb map in id order, applies the manifest to every active
partition, and returns the id of the first partition that rejects it
(stopping there), or none when every active partition accepted. -/
def Collections.updateAllVBuckets :
    List CollectionsVB → Manifest → Nat → List CollectionsVB × Option Nat
  | [], _, _ => ([], none)
  | vb :: rest, m, i =>
    if vb.state = .active then
      let (vb', ok) := vb.updateFromManifest m
      if ok then
        let (rest', r) := Collections.updateAllVBuckets rest m (i + 1)
        (vb' :: rest', r)
      else
        (vb' :: rest, some i)
    else
      let (rest', r) := Collections.updateAllVBuckets rest m (i + 1)
      (vb :: rest', r)

/-- The collections manager state: the current manifest (null until a
manifest has been applied). -/
structure ManagerRec where
  current : Option Manifest
deriving DecidableEq, Repr

/-- The error codes produced by `Collections::Manager::update`. -/
inductive EngineErrc
  | success
  | temporary_failure
  | invalid_arguments
  | cannot_apply_collections_manifest
deriving DecidableEq, Repr

/-- Embeds `Collections::Manager::update` (src/unnamed/part_001).
`tryLockOk` is the outcome of the `std::try_to_lock` on the manager lock;
`newManifest` is `none` when the `Manifest` constructor threw on invalid
JSON.  On a rejected update the code re-applies `*current` to all
partitions (the source dereferences `current` unconditionally here; we
supply a default for the null case) and fails with
`cannot_apply_collections_manifest`, leaving `current` unchanged. -/
def Collections.Manager.update (mgr : ManagerRec)
    (bucket : List CollectionsVB) (tryLockOk : Bool)
    (newManifest : Option Manifest) :
    EngineErrc × ManagerRec × List CollectionsVB :=
  if !tryLockOk then
    (.temporary_failure, mgr, bucket)
  else
    match newManifest with
    | none => (.invalid_arguments, mgr, bucket)
    | some nm =>
      let (bucket1, updated) := Collections.updateAllVBuckets bucket nm 0
      match updated with
      | some _ =>
        let (bucket2, _) :=
          Collections.updateAllVBuckets bucket1 (mgr.current.getD ⟨0⟩) 0
        (.cannot_apply_collections_manifest, mgr, bucket2)
      | none =>
        (.success, { current := some nm }, bucket1)

/-- Modelled from the spec: `cb::durability::Level` of a SyncWrite
requirement (§3, "Requirement level ∈ {Majority, MajorityAndPersistOnMaster,
PersistToMajority}").  The DurabilityMonitor implementation file is not in
the provided sources; only its tests are. -/
inductive Level
  | Majority
  | MajorityAndPersistOnMaster
  | PersistToMajority
deriving DecidableEq, Repr

/-- Modelled from the spec: an in-flight SyncWrite tracked by the
durability monitor (§3, "(key, seqno, requirement, client-handle)"). -/
structure SyncWrite where
  key : String
  seqno : Int
  level : Level
deriving DecidableEq, Repr

/-- Modelled from the spec: the per-node position of a replication-chain
node (§3, "{memory_write_seqno, disk_write_seqno, memory_ack_seqno,
disk_ack_seqno}"). -/
structure NodePosition where
  memoryWriteSeqno : Int := 0
  diskWriteSeqno : Int := 0
  memoryAckSeqno : Int := 0
  diskAckSeqno : Int := 0
deriving DecidableEq, Repr

/-- Modelled from the spec: the DurabilityMonitor's state (§4.F, "Owns an
ordered list trackedWrites of SyncWrites per partition and a replication
chain").  The chain is the ordered node list, active first; `positions`
associates each chain node with its seqno positions. -/
structure DurabilityMonitor where
  chain : List String
  positions : List (String × NodePosition)
  trackedWrites : List SyncWrite
deriving DecidableEq, Repr

/-- Lookup of a node's position in the association list. -/
def lookupPos : List (String × NodePosition) → String → Option NodePosition
  | [], _ => none
  | (k, p) :: rest, n => if k = n then some p else lookupPos rest n

/-- Replace a node's position in the association list. -/
def updatePos : List (String × NodePosition) → String → NodePosition →
    List (String × NodePosition)
  | [], _, _ => []
  | (k, q) :: rest, n, p =>
    if k = n then (k, p) :: rest else (k, q) :: updatePos rest n p

/-- The memory write-seqno cursor of a chain node. -/
def DurabilityMonitor.nodeMemoryWriteSeqno (m : DurabilityMonitor)
    (n : String) : Int :=
  ((lookupPos m.positions n).getD {}).memoryWriteSeqno

/-- The disk write-seqno cursor of a chain node. -/
def DurabilityMonitor.nodeDiskWriteSeqno (m : DurabilityMonitor)
    (n : String) : Int :=
  ((lookupPos m.positions n).getD {}).diskWriteSeqno

/-- The memory ack-seqno of a chain node. -/
def DurabilityMonitor.nodeMemoryAckSeqno (m : DurabilityMonitor)
    (n : String) : Int :=
  ((lookupPos m.positions n).getD {}).memoryAckSeqno

/-- The disk ack-seqno of a chain node. -/
def DurabilityMonitor.nodeDiskAckSeqno (m : DurabilityMonitor)
    (n : String) : Int :=
  ((lookupPos m.positions n).getD {}).diskAckSeqno

/-- Modelled from the spec:
`DurabilityMonitor::registerReplicationChain` (implementation file absent
from the sources; behaviour fixed by §3, "Replication chain: ordered list
(1..4) of node identifiers including the active", and by the tests
`RegisterChain_Empty`, `RegisterChain_TooManyNodes`,
`RegisterChain_NodeDuplicate` of src/unnamed/part_002). -/
def DurabilityMonitor.registerReplicationChain (nodes : List String) :
    Except String DurabilityMonitor :=
  if nodes.isEmpty then
    .error "registerReplicationChain: Empty chain not allowed"
  else if 4 < nodes.length then
    .error "registerReplicationChain: Too many nodes in chain"
  else if nodes.dedup.length ≠ nodes.length then
    .error "registerReplicationChain: Duplicate node"
  else
    .ok { chain := nodes,
          positions := nodes.map (fun n => (n, {})),
          trackedWrites := [] }

/-- Modelled from the spec: `DurabilityMonitor::addSyncWrite` (§4.F,
"appends to trackedWrites.  The active's own memory_write_seqno is
advanced implicitly (the write is in the active's checkpoint at
registration time)"; the tests also observe the active's memory
ack-seqno at the same value). The active is the chain's first node. -/
def DurabilityMonitor.addSyncWrite (m : DurabilityMonitor) (key : String)
    (seqno : Int) (level : Level) : DurabilityMonitor :=
  let m' := { m with trackedWrites := m.trackedWrites ++ [⟨key, seqno, level⟩] }
  match m.chain with
  | [] => m'
  | active :: _ =>
    match lookupPos m'.positions active with
    | none => m'
    | some p =>
      { m' with positions :=
          (updatePos m'.positions active
            { p with memoryWriteSeqno := seqno, memoryAckSeqno := seqno }) }

/-- Modelled from the spec: the number of nodes a requirement needs,
`⌈(|chain|+1)/2⌉` (§4.F step 4).  In natural-number arithmetic
`⌈(n+1)/2⌉ = (n+1+1)/2`. -/
def DurabilityMonitor.majorityRequired (m : DurabilityMonitor) : Nat :=
  (m.chain.length + 1 + 1) / 2

/-- Modelled from the spec: the largest seqno among `trackedWrites` that is
≤ the acknowledged seqno (§4.F step 3), or `none` when no tracked seqno
is ≤ the ack. -/
def maxTrackedSeqnoLE : List SyncWrite → Int → Option Int
  | [], _ => none
  | w :: rest, ack =>
    let r := maxTrackedSeqnoLE rest ack
    if w.seqno ≤ ack then
      match r with
      | none => some w.seqno
      | some s => some (max w.seqno s)
    else
      r

/-- Modelled from the spec: whether a tracked write's requirement is
satisfied (§4.F step 4): Majority needs `⌈(|chain|+1)/2⌉` nodes with
`memory_write_seqno ≥ write.seqno`; MajorityAndPersistOnMaster needs
Majority and the active's `disk_write_seqno ≥ write.seqno`;
PersistToMajority needs the majority on disk. -/
def DurabilityMonitor.writeSatisfied (m : DurabilityMonitor)
    (w : SyncWrite) : Bool :=
  match w.level with
  | .Majority =>
      decide (m.majorityRequired ≤
        m.chain.countP (fun n => decide (w.seqno ≤ m.nodeMemoryWriteSeqno n)))
  | .MajorityAndPersistOnMaster =>
      (decide (m.majorityRequired ≤
        m.chain.countP (fun n => decide (w.seqno ≤ m.nodeMemoryWriteSeqno n))))
      && decide (w.seqno ≤ m.nodeDiskWriteSeqno (m.chain.headD ""))
  | .PersistToMajority =>
      decide (m.majorityRequired ≤
        m.chain.countP (fun n => decide (w.seqno ≤ m.nodeDiskWriteSeqno n)))

/-- Modelled from the spec, §4.F steps 2-3 of `seqnoAckReceived`:
record the node's new ack seqnos and advance its write-seqno cursors, per
channel, to the largest tracked seqno that is ≤ the corresponding ack
seqno (unchanged if no tracked seqno is). -/
def DurabilityMonitor.ackUpdate (m : DurabilityMonitor) (node : String)
    (p : NodePosition) (memSeqno diskSeqno : Int) : DurabilityMonitor :=
  { m with positions :=
      (updatePos m.positions node
        { memoryWriteSeqno :=
            (maxTrackedSeqnoLE m.trackedWrites memSeqno).getD
              p.memoryWriteSeqno
          diskWriteSeqno :=
            (maxTrackedSeqnoLE m.trackedWrites diskSeqno).getD
              p.diskWriteSeqno
          memoryAckSeqno := memSeqno
          diskAckSeqno := diskSeqno }) }

/-- Modelled from the spec: `DurabilityMonitor::seqnoAckReceived` (§4.F
steps 1-6; implementation file absent from the sources, behaviour also
pinned by the tests of src/unnamed/part_002).  Returns the resulting
monitor and either the list of committed writes (removed from
trackedWrites, in seqno order: the longest satisfied leading run, per
step 6 "if the leading tracked write cannot yet be satisfied, stop") or
the message of the thrown `std::logic_error`; on an error the monitor is
returned unchanged, as the exception is thrown before any mutation. -/
def DurabilityMonitor.seqnoAckReceived (m : DurabilityMonitor)
    (node : String) (memSeqno diskSeqno : Int) :
    DurabilityMonitor × Except String (List SyncWrite) :=
  if memSeqno < diskSeqno then
    (m, .error "seqnoAckReceived: memorySeqno < diskSeqno")
  else if m.trackedWrites.isEmpty then
    (m, .error "seqnoAckReceived: No tracked SyncWrite")
  else
    match lookupPos m.positions node with
    | none => (m, .error "seqnoAckReceived: node is not in the chain")
    | some p =>
      if memSeqno < p.memoryAckSeqno ∨ diskSeqno < p.diskAckSeqno then
        (m, .error "seqnoAckReceived: Monotonic ack invariant violated")
      else
        let m1 := m.ackUpdate node p memSeqno diskSeqno
        ({ m1 with trackedWrites :=
             m1.trackedWrites.dropWhile (m1.writeSatisfied) },
         .ok (m1.trackedWrites.takeWhile (m1.writeSatisfied)))

/-- C7 counterexample: two persisted-state values that differ only in the
snapshot window (an advanced `lastSnapStart`/`lastSnapEnd`), agreeing on
`state` and `failover_table`; the claim demands `needsToBePersisted` be
true there, but the source returns false. -/
def vbstateBase : vbucket_state :=
  { state := .active, checkpointId := 1, maxDeletedSeqno := 0,
    highSeqno := 10, purgeSeqno := 0, lastSnapStart := 0, lastSnapEnd := 10,
    maxCas := 0, hlcCasEpochSeqno := 0, mightContainXattrs := false,
    failovers := "failover-table-json", supportsCollections := false }

/-- The same persisted state after a checkpoint flush advanced the
snapshot window. -/
def vbstateSnapAdvanced : vbucket_state :=
  { vbstateBase with lastSnapStart := 11, lastSnapEnd := 20 }

/-- A concrete partition used to instantiate the C10 theorem. -/
def vbRecEx : VBucketRec :=
  { state := .active,
    failovers := [⟨7, 100⟩],
    checkpointMgr := { snapStart := 90, snapEnd := 100,
                       openCheckpointId := 3 },
    pendingOps := [1, 2],
    persistedSnapStart := 80, persistedSnapEnd := 100,
    persistenceSeqno := 100 }

/-- A concrete bucket for the C6 witness: one active partition that
rejects the new manifest (uid 2) but accepts the old one (uid 1). -/
def c6Bucket : List CollectionsVB :=
  [{ state := .active, accepts := fun mf => mf.uid = 1, manifest := ⟨1⟩ }]


/-- A concrete 4-node monitor for the C1 witness: the active and replica2
have already acknowledged the single tracked Majority write at seqno 1
(the active implicitly at registration). -/
def c1Write : SyncWrite := { key := "key1", seqno := 1, level := .Majority }

/-- See `c1Write`. -/
def c1Mon : DurabilityMonitor :=
  { chain := ["active", "replica1", "replica2", "replica3"],
    positions :=
      [("active", ⟨1, 0, 1, 0⟩), ("replica1", ⟨0, 0, 0, 0⟩),
       ("replica2", ⟨1, 0, 1, 0⟩), ("replica3", ⟨0, 0, 0, 0⟩)],
    trackedWrites := [c1Write] }

/-- The monitor after replica3 acknowledges seqno 1: three of four nodes
hold memory_write_seqno ≥ 1, so the write commits and leaves
trackedWrites. -/
def c1MonAfter : DurabilityMonitor :=
  { chain := ["active", "replica1", "replica2", "replica3"],
    positions :=
      [("active", ⟨1, 0, 1, 0⟩), ("replica1", ⟨0, 0, 0, 0⟩),
       ("replica2", ⟨1, 0, 1, 0⟩), ("replica3", ⟨1, 0, 1, 0⟩)],
    trackedWrites := [] }

/-- A concrete 2-node monitor for the C3 witness, tracking one write. -/
def c3Mon : DurabilityMonitor :=
  { chain := ["active", "replica"],
    positions := [("active", ⟨1, 0, 1, 0⟩), ("replica", ⟨0, 0, 0, 0⟩)],
    trackedWrites := [c1Write] }

/-- A concrete monitor for the C4 witness: sparse tracked seqnos 1, 3, 5
(the active acknowledged implicitly up to 5). -/
def c4Mon : DurabilityMonitor :=
  { chain := ["active", "replica"],
    positions := [("active", ⟨5, 0, 5, 0⟩), ("replica", ⟨0, 0, 0, 0⟩)],
    trackedWrites :=
      [{ key := "key1", seqno := 1, level := .Majority },
       { key := "key3", seqno := 3, level := .Majority },
       { key := "key5", seqno := 5, level := .Majority }] }

/-- The monitor after the replica acknowledges memory seqno 4 (between
the sparse tracked seqnos): the replica cursor advances to 3, writes 1
and 3 commit, write 5 stays tracked. -/
def c4MonAfter : DurabilityMonitor :=
  { chain := ["active", "replica"],
    positions := [("active", ⟨5, 0, 5, 0⟩), ("replica", ⟨3, 0, 4, 0⟩)],
    trackedWrites := [{ key := "key5", seqno := 5, level := .Majority }] }

/-! ## Theorems -/

/-- C5: `Connection::remapErrorCode` is the identity for clients that
negotiated extended errors; for every client that did not, Locked is
remapped to KeyExists, LockedTempFailure to TempFailure,
SyncWriteInProgress to TempFailure, and all whitelisted codes pass
through unchanged. -/
theorem Connection.remapErrorCode_policy :
    (∀ (cs : Bool) (code : EngineError),
        Connection.remapErrorCode true cs code = code)
    ∧ (∀ cs : Bool,
        Connection.remapErrorCode false cs .ENGINE_LOCKED =
            .ENGINE_KEY_EEXISTS
        ∧ Connection.remapErrorCode false cs .ENGINE_LOCKED_TMPFAIL =
            .ENGINE_TMPFAIL
        ∧ Connection.remapErrorCode false cs .ENGINE_SYNC_WRITE_IN_PROGRESS =
            .ENGINE_TMPFAIL
        ∧ ∀ code ∈ errorWhitelist,
            Connection.remapErrorCode false cs code = code) := by
  decide

/-- Witness for C5: the whitelist-membership hypothesis discharged at
ENGINE_ROLLBACK for a client without extended errors. -/
theorem Connection.remapErrorCode_policy_witness :
    EngineError.ENGINE_ROLLBACK ∈ errorWhitelist
    ∧ Connection.remapErrorCode false false .ENGINE_ROLLBACK =
        .ENGINE_ROLLBACK :=
  ⟨by decide,
   Connection.remapErrorCode_policy.2 false |>.2.2.2
     .ENGINE_ROLLBACK (by decide)⟩

/-- C8: after `Connection::addCpuTime(ns)`, `min_sched_time` is the minimum
of its previous value and `ns`, and `max_sched_time` is assigned
`std::max(min_sched_time, ns)` using the just-updated `min_sched_time` —
hence it always equals `ns`, never incorporating its own previous value;
observing samples 5 then 3 leaves `max_sched_time = 3`, not the running
maximum 5. -/
theorem Connection.addCpuTime_spec :
    (∀ (c : ConnectionCpu) (ns : Nat),
      (Connection.addCpuTime c ns).min_sched_time =
          Nat.min c.min_sched_time ns
      ∧ (Connection.addCpuTime c ns).max_sched_time =
          Nat.max (Connection.addCpuTime c ns).min_sched_time ns
      ∧ (Connection.addCpuTime c ns).max_sched_time = ns)
    ∧ (Connection.addCpuTime
        (Connection.addCpuTime ⟨0, 1000000, 0⟩ 5) 3).max_sched_time ≠ 5 := by
  constructor
  · intro c ns
    refine ⟨rfl, rfl, ?_⟩
    simp [Connection.addCpuTime,
      Nat.max_eq_right (Nat.min_le_right c.min_sched_time ns)]
  · decide

/-- C9: `Connection::prepare` always returns via its first return
statement (Success, or TooBig when the write buffer cannot hold the
header, or Failed on item-info/reservation failure); the trailing
`return ENGINE_ENOTSUP;` is unreachable, so `prepare` never returns
NotSupported. -/
theorem Connection.prepare_no_enotsup :
    ∀ (itemInfoOk reserveOk : Bool) (wbufSize total : Nat),
      (Connection.prepareReturns itemInfoOk reserveOk wbufSize total).isSome
          = true
      ∧ Connection.prepare itemInfoOk reserveOk wbufSize total ≠
          .ENGINE_ENOTSUP
      ∧ (Connection.prepare itemInfoOk reserveOk wbufSize total =
            .ENGINE_SUCCESS
         ∨ Connection.prepare itemInfoOk reserveOk wbufSize total =
            .ENGINE_E2BIG
         ∨ Connection.prepare itemInfoOk reserveOk wbufSize total =
            .ENGINE_FAILED) := by
  intro itemInfoOk reserveOk wbufSize total
  unfold Connection.prepare Connection.prepareReturns
  cases itemInfoOk <;> cases reserveOk <;> simp <;>
    by_cases h : wbufSize < total <;> simp [h] <;> omega

/-- C7 counterexample: the snapshot window advanced (and nothing else
changed), yet `needsToBePersisted` returns false — refuting that it
returns true exactly when state or failover_table change or the snapshot
window advances. -/
theorem vbucket_state.needsToBePersisted_snapshot_cex :
    vbstateSnapAdvanced.lastSnapStart ≠ vbstateBase.lastSnapStart
    ∧ vbstateSnapAdvanced.lastSnapEnd ≠ vbstateBase.lastSnapEnd
    ∧ vbstateSnapAdvanced.state = vbstateBase.state
    ∧ vbstateSnapAdvanced.failovers = vbstateBase.failovers
    ∧ vbucket_state.needsToBePersisted vbstateBase vbstateSnapAdvanced =
        false := by
  decide

/-- C7 (amended): `needsToBePersisted` returns true exactly when the
`state` field or the `failover_table` string differ; two vbucket_state
values differing only in any other fields (the snapshot window included)
yield false. -/
theorem vbucket_state.needsToBePersisted_iff :
    ∀ a b : vbucket_state,
      (vbucket_state.needsToBePersisted a b = true ↔
          (a.state ≠ b.state ∨ a.failovers ≠ b.failovers))
      ∧ (a.state = b.state → a.failovers = b.failovers →
          vbucket_state.needsToBePersisted a b = false) := by
  intro a b
  constructor
  · by_cases h : a.state ≠ b.state ∨ a.failovers ≠ b.failovers <;>
      simp [vbucket_state.needsToBePersisted, h]
  · intro h1 h2
    simp [vbucket_state.needsToBePersisted, h1, h2]

/-- Witness for C7's amended theorem: the hypotheses discharged at the
concrete snapshot-advance pair. -/
theorem vbucket_state.needsToBePersisted_iff_witness :
    vbstateBase.state = vbstateSnapAdvanced.state
    ∧ vbstateBase.failovers = vbstateSnapAdvanced.failovers
    ∧ vbucket_state.needsToBePersisted vbstateBase vbstateSnapAdvanced =
        false :=
  ⟨by decide, by decide,
   (vbucket_state.needsToBePersisted_iff vbstateBase vbstateSnapAdvanced).2
     (by decide) (by decide)⟩

/-- C2 counterexample: on an active, takeover-backed-up partition, set,
add and delete fail TempFailure but replace proceeds — the admission
sequence is not applied uniformly by all four operations. -/
theorem KVBucket.replace_takeover_cex :
    KVBucket.set_admission ⟨.active, true, true⟩ =
        .fail .ENGINE_TMPFAIL
    ∧ KVBucket.add_admission ⟨.active, true, true⟩ 0 =
        .fail .ENGINE_TMPFAIL
    ∧ KVBucket.deleteItem_admission ⟨.active, true, true⟩ =
        .fail .ENGINE_TMPFAIL
    ∧ KVBucket.replace_admission ⟨.active, true, true⟩ ≠
        .fail .ENGINE_TMPFAIL
    ∧ KVBucket.replace_admission ⟨.active, true, true⟩ = .proceed := by
  decide

/-- C2 (amended): for every client write against an existing partition,
dead or replica state fails NotMyPartition and pending state (with the
cookie enqueued) fails WouldBlock, uniformly across set, add, replace and
delete; the takeover-backed-up TempFailure applies to set, add and
delete, but replace omits that check and proceeds. -/
theorem KVBucket.client_write_admission :
    ∀ (vb : VBucketGate) (cas : Nat),
      ((vb.state = .dead ∨ vb.state = .replica) →
        KVBucket.set_admission vb = .fail .ENGINE_NOT_MY_VBUCKET
        ∧ KVBucket.add_admission vb cas = .fail .ENGINE_NOT_MY_VBUCKET
        ∧ KVBucket.replace_admission vb = .fail .ENGINE_NOT_MY_VBUCKET
        ∧ KVBucket.deleteItem_admission vb = .fail .ENGINE_NOT_MY_VBUCKET)
      ∧ (vb.state = .pending → vb.addPendingOpSucceeds = true →
        KVBucket.set_admission vb = .fail .ENGINE_EWOULDBLOCK
        ∧ KVBucket.add_admission vb cas = .fail .ENGINE_EWOULDBLOCK
        ∧ KVBucket.replace_admission vb = .fail .ENGINE_EWOULDBLOCK
        ∧ KVBucket.deleteItem_admission vb = .fail .ENGINE_EWOULDBLOCK)
      ∧ (vb.state = .active → vb.takeoverBackedUp = true →
        KVBucket.set_admission vb = .fail .ENGINE_TMPFAIL
        ∧ KVBucket.add_admission vb cas = .fail .ENGINE_TMPFAIL
        ∧ KVBucket.deleteItem_admission vb = .fail .ENGINE_TMPFAIL
        ∧ KVBucket.replace_admission vb = .proceed) := by
  intro vb cas
  rcases vb with ⟨s, t, a⟩
  refine ⟨?_, ?_, ?_⟩
  · rintro (h | h) <;> subst h <;>
      simp [KVBucket.set_admission, KVBucket.add_admission,
            KVBucket.replace_admission, KVBucket.deleteItem_admission]
  · rintro h ha
    subst h
    subst ha
    simp [KVBucket.set_admission, KVBucket.add_admission,
          KVBucket.replace_admission, KVBucket.deleteItem_admission]
  · rintro h ht
    subst h
    subst ht
    simp [KVBucket.set_admission, KVBucket.add_admission,
          KVBucket.replace_admission, KVBucket.deleteItem_admission]

/-- Witness for C2's amended theorem: the active/takeover hypotheses
discharged on a concrete gate. -/
theorem KVBucket.client_write_admission_witness :
    KVBucket.set_admission ⟨.active, true, false⟩ = .fail .ENGINE_TMPFAIL
    ∧ KVBucket.add_admission ⟨.active, true, false⟩ 0 =
        .fail .ENGINE_TMPFAIL
    ∧ KVBucket.deleteItem_admission ⟨.active, true, false⟩ =
        .fail .ENGINE_TMPFAIL
    ∧ KVBucket.replace_admission ⟨.active, true, false⟩ = .proceed :=
  (KVBucket.client_write_admission ⟨.active, true, false⟩ 0).2.2 rfl rfl

/-- C10: for an existing partition, requesting a transition to the state
it already holds with empty metadata returns Success immediately and
leaves the partition unchanged: same failover table, checkpoint manager
and pending-ops queue, no failover entry created, no DCP notification, no
pending-ops task, no state persistence scheduled. -/
theorem KVBucket.setVBucketState_idempotent :
    ∀ (vb : VBucketRec) (meta : List (String × String))
      (transfer : TransferVB) (notify_dcp : Bool) (newUuid : Nat)
      (vbidInRange : Bool),
      meta.isEmpty = true →
      KVBucket.setVBucketState_UNLOCKED (some vb) vb.state meta transfer
          notify_dcp newUuid vbidInRange =
        { result := .ENGINE_SUCCESS, vb := some vb, dcpNotified := false,
          snapshotRangeReset := false, collectionsUpdated := false,
          pendingOpsTaskScheduled := false, persistScheduled := false,
          createdNew := false } := by
  intro vb meta transfer notify_dcp newUuid vbidInRange h
  simp [KVBucket.setVBucketState_UNLOCKED, h]

/-- Witness for C10: the empty-metadata hypothesis discharged at a
concrete active partition. -/
theorem KVBucket.setVBucketState_idempotent_witness :
    (([] : List (String × String)).isEmpty = true)
    ∧ KVBucket.setVBucketState_UNLOCKED (some vbRecEx) vbRecEx.state []
        .No true 42 true =
      { result := .ENGINE_SUCCESS, vb := some vbRecEx, dcpNotified := false,
        snapshotRangeReset := false, collectionsUpdated := false,
        pendingOpsTaskScheduled := false, persistScheduled := false,
        createdNew := false } :=
  ⟨rfl, KVBucket.setVBucketState_idempotent vbRecEx [] .No true 42 true rfl⟩

/-- Every partition produced by `updateAllVBuckets` has the state and
acceptance predicate of some input partition: `updateFromManifest` only
changes the manifest a partition holds. -/
theorem Collections.updateAllVBuckets_mem (l : List CollectionsVB)
    (m : Manifest) (i : Nat) :
    ∀ vb' ∈ (Collections.updateAllVBuckets l m i).1,
      ∃ vb ∈ l, vb'.state = vb.state ∧ vb'.accepts = vb.accepts := by
  induction l generalizing i with
  | nil =>
    simp [Collections.updateAllVBuckets]
  | cons vb rest ih =>
    by_cases h : vb.state = vbucket_state_t.active
    · by_cases h2 : vb.accepts m = true
      · simp only [Collections.updateAllVBuckets,
          CollectionsVB.updateFromManifest, h, h2, if_true]
        intro vb' hvb'
        simp only [List.mem_cons] at hvb'
        rcases hvb' with hvb' | hvb'
        · exact ⟨vb, List.mem_cons_self _ _, by simp [hvb', h]⟩
        · obtain ⟨w, hw, hws⟩ := ih (i + 1) vb' hvb'
          exact ⟨w, List.mem_cons_of_mem _ hw, hws⟩
      · simp only [Bool.not_eq_true] at h2
        simp only [Collections.updateAllVBuckets,
          CollectionsVB.updateFromManifest, h, h2, if_true, Bool.false_eq_true,
          if_false]
        intro vb' hvb'
        simp only [List.mem_cons] at hvb'
        rcases hvb' with hvb' | hvb'
        · exact ⟨vb, List.mem_cons_self _ _, by simp [hvb']⟩
        · exact ⟨vb', List.mem_cons_of_mem _ hvb', rfl, rfl⟩
    · simp only [Collections.updateAllVBuckets, h, if_false]
      intro vb' hvb'
      simp only [List.mem_cons] at hvb'
      rcases hvb' with hvb' | hvb'
      · exact ⟨vb, List.mem_cons_self _ _, by simp [hvb']⟩
      · obtain ⟨w, hw, hws⟩ := ih (i + 1) vb' hvb'
        exact ⟨w, List.mem_cons_of_mem _ hw, hws⟩

/-- When every active partition accepts the manifest, `updateAllVBuckets`
reports no rejection and every active partition of the result holds the
manifest. -/
theorem Collections.updateAllVBuckets_all_accept (l : List CollectionsVB)
    (m : Manifest) (i : Nat)
    (h : ∀ vb ∈ l, vb.state = .active → vb.accepts m = true) :
    (Collections.updateAllVBuckets l m i).2 = none
    ∧ ∀ vb' ∈ (Collections.updateAllVBuckets l m i).1,
        vb'.state = .active → vb'.manifest = m := by
  induction l generalizing i with
  | nil =>
    simp [Collections.updateAllVBuckets]
  | cons vb rest ih =>
    have hrest : ∀ w ∈ rest, w.state = .active → w.accepts m = true :=
      fun w hw => h w (List.mem_cons_of_mem _ hw)
    by_cases hact : vb.state = vbucket_state_t.active
    · have hacc : vb.accepts m = true := h vb (List.mem_cons_self _ _) hact
      simp only [Collections.updateAllVBuckets,
        CollectionsVB.updateFromManifest, hact, hacc, if_true]
      obtain ⟨ih1, ih2⟩ := ih (i + 1) hrest
      refine ⟨ih1, ?_⟩
      intro vb' hvb'
      simp only [List.mem_cons] at hvb'
      rcases hvb' with hvb' | hvb'
      · intro _
        simp [hvb']
      · exact ih2 vb' hvb'
    · simp only [Collections.updateAllVBuckets, hact, if_false]
      obtain ⟨ih1, ih2⟩ := ih (i + 1) hrest
      refine ⟨ih1, ?_⟩
      intro vb' hvb'
      simp only [List.mem_cons] at hvb'
      rcases hvb' with hvb' | hvb'
      · intro hc
        exact absurd (hvb' ▸ hc) hact
      · exact ih2 vb' hvb'

/-- C6: a collections manifest update while another update holds the
manager lock fails (TempFailure) without changing the current manifest or
any partition; when a new valid manifest is rejected by some active
partition, the previous manifest is re-applied to all active partitions
and the update fails CannotApply with the current manifest unchanged; and
only when every active partition accepts does the current manifest become
the new one. -/
theorem Collections.Manager.update_spec :
    ∀ (mgr : ManagerRec) (bucket : List CollectionsVB) (nm oldm : Manifest),
      mgr.current = some oldm →
      (Collections.Manager.update mgr bucket false (some nm) =
          (.temporary_failure, mgr, bucket))
      ∧ ((Collections.updateAllVBuckets bucket nm 0).2 ≠ none →
          (∀ vb ∈ bucket, vb.state = .active → vb.accepts oldm = true) →
          (Collections.Manager.update mgr bucket true (some nm)).1 =
              .cannot_apply_collections_manifest
          ∧ (Collections.Manager.update mgr bucket true (some nm)).2.1 = mgr
          ∧ ∀ vb' ∈ (Collections.Manager.update mgr bucket true
                (some nm)).2.2,
              vb'.state = .active → vb'.manifest = oldm)
      ∧ ((Collections.updateAllVBuckets bucket nm 0).2 = none →
          Collections.Manager.update mgr bucket true (some nm) =
            (.success, { current := some nm },
              (Collections.updateAllVBuckets bucket nm 0).1)) := by
  intro mgr bucket nm oldm hcur
  refine ⟨rfl, ?_, ?_⟩
  · intro hrej hacc
    rcases hup : Collections.updateAllVBuckets bucket nm 0 with
      ⟨bucket1, updated⟩
    rw [hup] at hrej
    simp only at hrej
    rcases updated with _ | j
    · exact absurd rfl hrej
    · have hacc1 : ∀ vb ∈ bucket1, vb.state = .active →
          vb.accepts oldm = true := by
        intro vb' hvb' hst
        obtain ⟨vb, hvb, hs, ha⟩ :=
          Collections.updateAllVBuckets_mem bucket nm 0 vb'
            (by rw [hup]; exact hvb')
        rw [ha]
        exact hacc vb hvb (hs ▸ hst)
      obtain ⟨_, hall⟩ :=
        Collections.updateAllVBuckets_all_accept bucket1 oldm 0 hacc1
      simp only [Collections.Manager.update, Bool.not_true,
        Bool.false_eq_true, if_false, hup, hcur, Option.getD_some]
      exact ⟨trivial, trivial, hall⟩
  · intro hnone
    rcases hup : Collections.updateAllVBuckets bucket nm 0 with
      ⟨bucket1, updated⟩
    rw [hup] at hnone
    simp only at hnone
    subst hnone
    simp [Collections.Manager.update, hup]

/-- Witness for C6: the hypotheses discharged on the concrete bucket —
the singleton active partition rejects manifest 2, so the update fails
CannotApply, the manager still holds manifest 1, and the partition holds
manifest 1 again. -/
theorem Collections.Manager.update_spec_witness :
    ((⟨some ⟨1⟩⟩ : ManagerRec).current = some ⟨1⟩)
    ∧ ((Collections.Manager.update ⟨some ⟨1⟩⟩ c6Bucket true (some ⟨2⟩)).1 =
          .cannot_apply_collections_manifest
        ∧ (Collections.Manager.update ⟨some ⟨1⟩⟩ c6Bucket true
            (some ⟨2⟩)).2.1 = (⟨some ⟨1⟩⟩ : ManagerRec)
        ∧ ∀ vb' ∈ (Collections.Manager.update ⟨some ⟨1⟩⟩ c6Bucket true
              (some ⟨2⟩)).2.2,
            vb'.state = .active → vb'.manifest = (⟨1⟩ : Manifest)) :=
  ⟨rfl,
   (Collections.Manager.update_spec ⟨some ⟨1⟩⟩ c6Bucket ⟨2⟩ ⟨1⟩ rfl).2.1
     (by simp [c6Bucket, Collections.updateAllVBuckets,
           CollectionsVB.updateFromManifest])
     (by intro vb hvb hst
         simp only [c6Bucket, List.mem_singleton] at hvb
         simp [hvb])⟩

/-- Updating a node present in the association list makes its lookup
return the new position. -/
theorem lookupPos_updatePos_self (ps : List (String × NodePosition))
    (n : String) (p q : NodePosition) (h : lookupPos ps n = some p) :
    lookupPos (updatePos ps n q) n = some q := by
  induction ps with
  | nil => simp [lookupPos] at h
  | cons kp rest ih =>
    rcases kp with ⟨k, r⟩
    by_cases hk : k = n
    · simp [lookupPos, updatePos, hk]
    · simp only [lookupPos, updatePos, hk, if_false] at h ⊢
      exact ih h

/-- If `maxTrackedSeqnoLE` finds nothing, no tracked seqno is ≤ the ack. -/
theorem maxTrackedSeqnoLE_eq_none (ws : List SyncWrite) (ack : Int)
    (h : maxTrackedSeqnoLE ws ack = none) :
    ∀ w ∈ ws, ¬(w.seqno ≤ ack) := by
  induction ws with
  | nil => simp
  | cons w rest ih =>
    intro v hv
    simp only [maxTrackedSeqnoLE] at h
    by_cases hw : w.seqno ≤ ack
    · rw [if_pos hw] at h
      cases hr : maxTrackedSeqnoLE rest ack <;> rw [hr] at h <;> simp at h
    · rw [if_neg hw] at h
      rcases List.mem_cons.mp hv with rfl | hv'
      · exact hw
      · exact ih h v hv'

/-- The value `maxTrackedSeqnoLE` finds is a tracked seqno, is ≤ the ack,
and dominates every tracked seqno that is ≤ the ack. -/
theorem maxTrackedSeqnoLE_spec (ws : List SyncWrite) (ack : Int) :
    ∀ s, maxTrackedSeqnoLE ws ack = some s →
      s ∈ ws.map SyncWrite.seqno ∧ s ≤ ack
      ∧ ∀ w ∈ ws, w.seqno ≤ ack → w.seqno ≤ s := by
  induction ws with
  | nil => simp [maxTrackedSeqnoLE]
  | cons w rest ih =>
    intro s h
    simp only [maxTrackedSeqnoLE] at h
    by_cases hw : w.seqno ≤ ack
    · rw [if_pos hw] at h
      cases hr : maxTrackedSeqnoLE rest ack with
      | none =>
        rw [hr] at h
        simp only [Option.some.injEq] at h
        subst h
        have hnone := maxTrackedSeqnoLE_eq_none rest ack hr
        refine ⟨by simp, hw, ?_⟩
        intro v hv hva
        rcases List.mem_cons.mp hv with rfl | hv'
        · exact le_refl _
        · exact absurd hva (hnone v hv')
      | some t =>
        rw [hr] at h
        simp only [Option.some.injEq] at h
        subst h
        obtain ⟨hmem, hle, hmax⟩ := ih t hr
        refine ⟨?_, max_le hw hle, ?_⟩
        · by_cases hcmp : t ≤ w.seqno
          · rw [max_eq_left hcmp]
            simp
          · rw [max_eq_right (le_of_not_le hcmp)]
            simp only [List.map_cons, List.mem_cons]
            exact Or.inr hmem
        · intro v hv hva
          rcases List.mem_cons.mp hv with rfl | hv'
          · exact le_max_left _ _
          · exact le_trans (hmax v hv' hva) (le_max_right _ _)
    · rw [if_neg hw] at h
      obtain ⟨hmem, hle, hmax⟩ := ih s h
      refine ⟨by simp only [List.map_cons, List.mem_cons]; exact Or.inr hmem,
        hle, ?_⟩
      intro v hv hva
      rcases List.mem_cons.mp hv with rfl | hv'
      · exact absurd hva hw
      · exact hmax v hv' hva

/-- If some tracked seqno is ≤ the ack, `maxTrackedSeqnoLE` finds one. -/
theorem maxTrackedSeqnoLE_isSome (ws : List SyncWrite) (ack : Int)
    (h : ∃ w ∈ ws, w.seqno ≤ ack) :
    ∃ s, maxTrackedSeqnoLE ws ack = some s := by
  cases hr : maxTrackedSeqnoLE ws ack with
  | none =>
    obtain ⟨w, hw, hwa⟩ := h
    exact absurd hwa (maxTrackedSeqnoLE_eq_none ws ack hr w hw)
  | some s => exact ⟨s, rfl⟩

/-- On a seqno-sorted list and a predicate that is downward closed along
seqnos (within the list), the longest satisfying leading run contains
exactly the members satisfying the predicate. -/
theorem mem_takeWhile_iff_sorted (p : SyncWrite → Bool) :
    ∀ (ws : List SyncWrite),
      ws.Pairwise (fun a b => a.seqno < b.seqno) →
      (∀ a ∈ ws, ∀ b ∈ ws, a.seqno ≤ b.seqno → p b = true → p a = true) →
      ∀ w, w ∈ ws.takeWhile p ↔ (w ∈ ws ∧ p w = true)
  | [], _, _, w => by simp
  | x :: rest, hsort, hmono, w => by
    obtain ⟨hx, hrest⟩ := List.pairwise_cons.mp hsort
    have hmrest : ∀ a ∈ rest, ∀ b ∈ rest,
        a.seqno ≤ b.seqno → p b = true → p a = true :=
      fun a ha b hb =>
        hmono a (List.mem_cons_of_mem _ ha) b (List.mem_cons_of_mem _ hb)
    by_cases hpx : p x = true
    · rw [List.takeWhile_cons_of_pos hpx]
      simp only [List.mem_cons]
      constructor
      · rintro (rfl | hw)
        · exact ⟨Or.inl rfl, hpx⟩
        · obtain ⟨hmem, hp⟩ :=
            (mem_takeWhile_iff_sorted p rest hrest hmrest w).mp hw
          exact ⟨Or.inr hmem, hp⟩
      · rintro ⟨rfl | hmem, hp⟩
        · exact Or.inl rfl
        · exact Or.inr
            ((mem_takeWhile_iff_sorted p rest hrest hmrest w).mpr ⟨hmem, hp⟩)
    · rw [List.takeWhile_cons_of_neg (by simpa using hpx)]
      constructor
      · intro hw
        exact absurd hw (List.not_mem_nil w)
      · rintro ⟨hmem, hp⟩
        rcases List.mem_cons.mp hmem with rfl | hmem'
        · exact absurd hp hpx
        · exact absurd
            (hmono x (List.mem_cons_self _ _) w (List.mem_cons_of_mem _ hmem')
              (le_of_lt (hx w hmem')) hp)
            hpx

/-- Inversion of a successful `seqnoAckReceived`: the node was in the
chain, and the result is the cursor/ack update followed by committing the
longest satisfied leading run of trackedWrites. -/
theorem DurabilityMonitor.seqnoAckReceived_ok_inv
    (m : DurabilityMonitor) (node : String) (memSeqno diskSeqno : Int)
    (m' : DurabilityMonitor) (committed : List SyncWrite)
    (h : m.seqnoAckReceived node memSeqno diskSeqno = (m', .ok committed)) :
    ∃ p, lookupPos m.positions node = some p
      ∧ m' = { m.ackUpdate node p memSeqno diskSeqno with
                 trackedWrites :=
                   m.trackedWrites.dropWhile
                     ((m.ackUpdate node p memSeqno diskSeqno).writeSatisfied) }
      ∧ committed = m.trackedWrites.takeWhile
            ((m.ackUpdate node p memSeqno diskSeqno).writeSatisfied) := by
  unfold DurabilityMonitor.seqnoAckReceived at h
  split at h
  · simp [Prod.ext_iff] at h
  split at h
  · simp [Prod.ext_iff] at h
  split at h
  · simp [Prod.ext_iff] at h
  next p heq =>
    split at h
    · simp [Prod.ext_iff] at h
    · simp only [Prod.mk.injEq, Except.ok.injEq] at h
      exact ⟨p, heq, h.1.symm, h.2.symm⟩

/-- C1: for a replication chain of n nodes (1 ≤ n ≤ 4) and tracked
SyncWrites all at requirement Majority (listed in increasing seqno
order), a successful `seqnoAckReceived` commits a tracked write if and
only if at least ⌈(n+1)/2⌉ chain nodes — the active counted through its
implicit acknowledgement at registration — have `memory_write_seqno` ≥
the write's seqno; the committed writes are removed from trackedWrites
and are in seqno order. -/
theorem DurabilityMonitor.majority_commit_iff
    (m : DurabilityMonitor) (node : String) (memSeqno diskSeqno : Int)
    (m' : DurabilityMonitor) (committed : List SyncWrite)
    (hchain1 : 1 ≤ m.chain.length) (hchain4 : m.chain.length ≤ 4)
    (hlevels : ∀ w ∈ m.trackedWrites, w.level = Level.Majority)
    (hsorted : m.trackedWrites.Pairwise (fun a b => a.seqno < b.seqno))
    (hok : m.seqnoAckReceived node memSeqno diskSeqno = (m', .ok committed)) :
    (∀ w ∈ m.trackedWrites,
      (w ∈ committed ↔
        (m.chain.length + 1 + 1) / 2 ≤
          m.chain.countP
            (fun n => decide (w.seqno ≤ m'.nodeMemoryWriteSeqno n))))
    ∧ committed ++ m'.trackedWrites = m.trackedWrites
    ∧ committed.Pairwise (fun a b => a.seqno < b.seqno) := by
  obtain ⟨p, hp, hm', hcom⟩ :=
    DurabilityMonitor.seqnoAckReceived_ok_inv m node memSeqno diskSeqno
      m' committed hok
  subst hm'
  subst hcom
  have hmono : ∀ a ∈ m.trackedWrites, ∀ b ∈ m.trackedWrites,
      a.seqno ≤ b.seqno →
      (m.ackUpdate node p memSeqno diskSeqno).writeSatisfied b = true →
      (m.ackUpdate node p memSeqno diskSeqno).writeSatisfied a = true := by
    intro a ha b hb hab hsb
    rw [DurabilityMonitor.writeSatisfied, hlevels b hb] at hsb
    rw [DurabilityMonitor.writeSatisfied, hlevels a ha]
    simp only [decide_eq_true_eq] at hsb ⊢
    refine le_trans hsb (List.countP_mono_left ?_)
    intro n _ hbn
    simp only [decide_eq_true_eq] at hbn ⊢
    exact le_trans hab hbn
  have hiff := mem_takeWhile_iff_sorted
    ((m.ackUpdate node p memSeqno diskSeqno).writeSatisfied)
    m.trackedWrites hsorted hmono
  refine ⟨?_, ?_, ?_⟩
  · intro w hw
    rw [hiff w]
    constructor
    · rintro ⟨_, hsat⟩
      rw [DurabilityMonitor.writeSatisfied, hlevels w hw] at hsat
      simpa [DurabilityMonitor.majorityRequired] using hsat
    · intro hcount
      refine ⟨hw, ?_⟩
      rw [DurabilityMonitor.writeSatisfied, hlevels w hw]
      simpa [DurabilityMonitor.majorityRequired] using hcount
  · simpa using List.takeWhile_append_dropWhile
      ((m.ackUpdate node p memSeqno diskSeqno).writeSatisfied) m.trackedWrites
  · exact List.Pairwise.sublist (List.takeWhile_sublist _) hsorted

/-- C3: `seqnoAckReceived(node, memSeqno, diskSeqno)` raises LogicError
exactly when memSeqno < diskSeqno, or no SyncWrites are tracked, or the
node's new ack seqno (either channel) is below its previously recorded
ack seqno; and whenever it raises, the monitor is unchanged. -/
theorem DurabilityMonitor.seqnoAckReceived_error_iff
    (m : DurabilityMonitor) (node : String) (memSeqno diskSeqno : Int)
    (p : NodePosition) (hp : lookupPos m.positions node = some p) :
    ((∃ e, (m.seqnoAckReceived node memSeqno diskSeqno).2 = .error e) ↔
      (memSeqno < diskSeqno ∨ m.trackedWrites = []
       ∨ memSeqno < p.memoryAckSeqno ∨ diskSeqno < p.diskAckSeqno))
    ∧ (∀ e, (m.seqnoAckReceived node memSeqno diskSeqno).2 = .error e →
        (m.seqnoAckReceived node memSeqno diskSeqno).1 = m) := by
  by_cases h1 : memSeqno < diskSeqno
  · refine ⟨⟨fun _ => Or.inl h1, fun _ => ?_⟩, fun e _ => ?_⟩
    · exact ⟨"seqnoAckReceived: memorySeqno < diskSeqno",
        by simp [DurabilityMonitor.seqnoAckReceived, h1]⟩
    · simp [DurabilityMonitor.seqnoAckReceived, h1]
  · by_cases h2 : m.trackedWrites = []
    · have h2' : m.trackedWrites.isEmpty = true := by simp [h2]
      refine ⟨⟨fun _ => Or.inr (Or.inl h2), fun _ => ?_⟩, fun e _ => ?_⟩
      · exact ⟨"seqnoAckReceived: No tracked SyncWrite",
          by simp [DurabilityMonitor.seqnoAckReceived, h1, h2']⟩
      · simp [DurabilityMonitor.seqnoAckReceived, h1, h2']
    · have h2' : m.trackedWrites.isEmpty = false := by
        cases hl : m.trackedWrites with
        | nil => exact absurd hl h2
        | cons a l => simp
      by_cases h3 : memSeqno < p.memoryAckSeqno ∨ diskSeqno < p.diskAckSeqno
      · refine ⟨⟨fun _ => Or.inr (Or.inr ?_), fun _ => ?_⟩, fun e _ => ?_⟩
        · exact h3
        · exact ⟨"seqnoAckReceived: Monotonic ack invariant violated", by
            simp [DurabilityMonitor.seqnoAckReceived, h1, h2', hp, h3]⟩
        · simp [DurabilityMonitor.seqnoAckReceived, h1, h2', hp, h3]
      · constructor
        · constructor
          · intro he
            obtain ⟨e, he⟩ := he
            rw [DurabilityMonitor.seqnoAckReceived] at he
            simp [h1, h2', hp, h3] at he
          · rintro (hc | hc | hc | hc)
            · exact absurd hc h1
            · exact absurd hc h2
            · exact absurd (Or.inl hc) h3
            · exact absurd (Or.inr hc) h3
        · intro e he
          rw [DurabilityMonitor.seqnoAckReceived] at he
          simp [h1, h2', hp, h3] at he

/-- C4: after a successful `seqnoAckReceived(node, memSeqno, diskSeqno)`,
the node's ack seqnos record the acknowledged values themselves, while
the node's write-seqno cursor of each channel equals the largest tracked
seqno that is ≤ the acknowledged seqno of that channel (whenever some
tracked seqno is ≤ it — a condition covering acks falling between sparse
tracked seqnos and acks beyond the last tracked seqno). -/
theorem DurabilityMonitor.seqnoAckReceived_cursor
    (m : DurabilityMonitor) (node : String) (memSeqno diskSeqno : Int)
    (m' : DurabilityMonitor) (committed : List SyncWrite)
    (hok : m.seqnoAckReceived node memSeqno diskSeqno = (m', .ok committed)) :
    m'.nodeMemoryAckSeqno node = memSeqno
    ∧ m'.nodeDiskAckSeqno node = diskSeqno
    ∧ ((∃ w ∈ m.trackedWrites, w.seqno ≤ memSeqno) →
        m'.nodeMemoryWriteSeqno node ∈ m.trackedWrites.map SyncWrite.seqno
        ∧ m'.nodeMemoryWriteSeqno node ≤ memSeqno
        ∧ ∀ w ∈ m.trackedWrites, w.seqno ≤ memSeqno →
            w.seqno ≤ m'.nodeMemoryWriteSeqno node)
    ∧ ((∃ w ∈ m.trackedWrites, w.seqno ≤ diskSeqno) →
        m'.nodeDiskWriteSeqno node ∈ m.trackedWrites.map SyncWrite.seqno
        ∧ m'.nodeDiskWriteSeqno node ≤ diskSeqno
        ∧ ∀ w ∈ m.trackedWrites, w.seqno ≤ diskSeqno →
            w.seqno ≤ m'.nodeDiskWriteSeqno node) := by
  obtain ⟨p, hp, hm', -⟩ :=
    DurabilityMonitor.seqnoAckReceived_ok_inv m node memSeqno diskSeqno
      m' committed hok
  subst hm'
  have hlook :
      lookupPos
        ({ m.ackUpdate node p memSeqno diskSeqno with
            trackedWrites :=
              m.trackedWrites.dropWhile
                ((m.ackUpdate node p memSeqno diskSeqno).writeSatisfied)
          } : DurabilityMonitor).positions node =
      some { memoryWriteSeqno :=
               (maxTrackedSeqnoLE m.trackedWrites memSeqno).getD
                 p.memoryWriteSeqno
             diskWriteSeqno :=
               (maxTrackedSeqnoLE m.trackedWrites diskSeqno).getD
                 p.diskWriteSeqno
             memoryAckSeqno := memSeqno
             diskAckSeqno := diskSeqno } := by
    exact lookupPos_updatePos_self m.positions node p _ hp
  refine ⟨?_, ?_, ?_, ?_⟩
  · simp [DurabilityMonitor.nodeMemoryAckSeqno, hlook]
  · simp [DurabilityMonitor.nodeDiskAckSeqno, hlook]
  · intro hex
    obtain ⟨s, hs⟩ := maxTrackedSeqnoLE_isSome m.trackedWrites memSeqno hex
    obtain ⟨hmem, hle, hmax⟩ := maxTrackedSeqnoLE_spec m.trackedWrites
      memSeqno s hs
    have hval : ({ m.ackUpdate node p memSeqno diskSeqno with
        trackedWrites :=
          m.trackedWrites.dropWhile
            ((m.ackUpdate node p memSeqno diskSeqno).writeSatisfied)
      } : DurabilityMonitor).nodeMemoryWriteSeqno node = s := by
      simp [DurabilityMonitor.nodeMemoryWriteSeqno, hlook, hs]
    rw [hval]
    exact ⟨hmem, hle, hmax⟩
  · intro hex
    obtain ⟨s, hs⟩ := maxTrackedSeqnoLE_isSome m.trackedWrites diskSeqno hex
    obtain ⟨hmem, hle, hmax⟩ := maxTrackedSeqnoLE_spec m.trackedWrites
      diskSeqno s hs
    have hval : ({ m.ackUpdate node p memSeqno diskSeqno with
        trackedWrites :=
          m.trackedWrites.dropWhile
            ((m.ackUpdate node p memSeqno diskSeqno).writeSatisfied)
      } : DurabilityMonitor).nodeDiskWriteSeqno node = s := by
      simp [DurabilityMonitor.nodeDiskWriteSeqno, hlook, hs]
    rw [hval]
    exact ⟨hmem, hle, hmax⟩

/-- Witness for C1: all hypotheses discharged at the concrete 4-node
monitor — replica3's acknowledgement of seqno 1 is the third of
⌈5/2⌉ = 3 required nodes, so the write commits. -/
theorem DurabilityMonitor.majority_commit_iff_witness :
    (1 ≤ c1Mon.chain.length)
    ∧ (c1Mon.chain.length ≤ 4)
    ∧ (∀ w ∈ c1Mon.trackedWrites, w.level = Level.Majority)
    ∧ c1Mon.trackedWrites.Pairwise (fun a b => a.seqno < b.seqno)
    ∧ (c1Mon.seqnoAckReceived "replica3" 1 0 = (c1MonAfter, .ok [c1Write]))
    ∧ ((∀ w ∈ c1Mon.trackedWrites,
          (w ∈ [c1Write] ↔
            (c1Mon.chain.length + 1 + 1) / 2 ≤
              c1Mon.chain.countP
                (fun n =>
                  decide (w.seqno ≤ c1MonAfter.nodeMemoryWriteSeqno n))))
        ∧ [c1Write] ++ c1MonAfter.trackedWrites = c1Mon.trackedWrites
        ∧ ([c1Write].Pairwise (fun a b => a.seqno < b.seqno))) :=
  ⟨by decide, by decide, by decide, by decide, by rfl,
   DurabilityMonitor.majority_commit_iff c1Mon "replica3" 1 0 c1MonAfter
     [c1Write] (by decide) (by decide) (by decide) (by decide) (by rfl)⟩

/-- Witness for C3: the node-position hypothesis discharged at the
concrete 2-node monitor, for an acknowledgement with memSeqno < diskSeqno. -/
theorem DurabilityMonitor.seqnoAckReceived_error_iff_witness :
    (lookupPos c3Mon.positions "replica" = some ⟨0, 0, 0, 0⟩)
    ∧ (((∃ e, (c3Mon.seqnoAckReceived "replica" 0 1).2 = .error e) ↔
          ((0 : Int) < 1 ∨ c3Mon.trackedWrites = []
           ∨ (0 : Int) < (⟨0, 0, 0, 0⟩ : NodePosition).memoryAckSeqno
           ∨ (1 : Int) < (⟨0, 0, 0, 0⟩ : NodePosition).diskAckSeqno))
        ∧ (∀ e, (c3Mon.seqnoAckReceived "replica" 0 1).2 = .error e →
            (c3Mon.seqnoAckReceived "replica" 0 1).1 = c3Mon)) :=
  ⟨by rfl,
   DurabilityMonitor.seqnoAckReceived_error_iff c3Mon "replica" 0 1
     ⟨0, 0, 0, 0⟩ (by rfl)⟩

/-- Witness for C4: the success hypothesis discharged at the concrete
sparse-seqno monitor — the replica acknowledges memory seqno 4 and its
memory cursor lands on tracked seqno 3. -/
theorem DurabilityMonitor.seqnoAckReceived_cursor_witness :
    (c4Mon.seqnoAckReceived "replica" 4 0 =
      (c4MonAfter, .ok [⟨"key1", 1, .Majority⟩, ⟨"key3", 3, .Majority⟩]))
    ∧ (c4MonAfter.nodeMemoryAckSeqno "replica" = 4
      ∧ c4MonAfter.nodeDiskAckSeqno "replica" = 0
      ∧ ((∃ w ∈ c4Mon.trackedWrites, w.seqno ≤ 4) →
          c4MonAfter.nodeMemoryWriteSeqno "replica" ∈
              c4Mon.trackedWrites.map SyncWrite.seqno
          ∧ c4MonAfter.nodeMemoryWriteSeqno "replica" ≤ 4
          ∧ ∀ w ∈ c4Mon.trackedWrites, w.seqno ≤ 4 →
              w.seqno ≤ c4MonAfter.nodeMemoryWriteSeqno "replica")
      ∧ ((∃ w ∈ c4Mon.trackedWrites, w.seqno ≤ 0) →
          c4MonAfter.nodeDiskWriteSeqno "replica" ∈
              c4Mon.trackedWrites.map SyncWrite.seqno
          ∧ c4MonAfter.nodeDiskWriteSeqno "replica" ≤ 0
          ∧ ∀ w ∈ c4Mon.trackedWrites, w.seqno ≤ 0 →
              w.seqno ≤ c4MonAfter.nodeDiskWriteSeqno "replica")) :=
  ⟨by rfl,
   DurabilityMonitor.seqnoAckReceived_cursor c4Mon "replica" 4 0 c4MonAfter
     [⟨"key1", 1, .Majority⟩, ⟨"key3", 3, .Majority⟩] (by rfl)⟩

end KVEngine

